import Mathlib

/-!
# Verification of the DMDc core (`pydmd/dmdc.py`)

Shallow embedding of Dynamic Mode Decomposition with control: the two
operator builders (`DMDBKnownOperator.compute_operator`,
`DMDBUnknownOperator.compute_operator`), the fitter `DMDc.fit`, and the
trajectory replay `DMDc.reconstructed_data`.

The numerical collaborators that live outside this module (the
rank-truncated SVD, the eigen-solver, the plain no-control operator
construction, the amplitude fitter, and the Moore-Penrose pseudo-inverse)
are modelled as oracle parameters gathered in `Externals`; every theorem
quantifies over them.  Scalars are taken in an arbitrary `Field` with a
`StarRing` structure (conjugation), so the statements cover the
complex-valued data the code manipulates while staying executable at
`K := ℚ` for concrete witnesses.
-/

open scoped Matrix

set_option linter.unusedSectionVars false

/-- Matrices with `n` rows and `m` columns over `K`, as used throughout. -/
abbrev Mat (n m : ℕ) (K : Type) := Matrix (Fin n) (Fin m) K

/-- A matrix of runtime-determined shape (numpy 2-D array). -/
abbrev SomeMat (K : Type) := Σ n : ℕ, Σ m : ℕ, Mat n m K

/-- A vector of runtime-determined length (numpy 1-D array). -/
abbrev SomeVec (K : Type) := Σ r : ℕ, (Fin r → K)

/-- A time dictionary `{t0, tend, dt}` with integer entries, as
`DMDc.fit` always stores: `t0 = 0`, `tend = n_samples - 1`, `dt = 1`. -/
structure TimeDict where
  t0 : ℤ
  tend : ℤ
  dt : ℤ
deriving DecidableEq

/-- Embedding of `np.vstack([A, B])`: stack `A` on top of `B` (their
column counts agree). -/
def vstack {K : Type} {n q m : ℕ} (A : Mat n m K) (B : Mat q m K) :
    Mat (n + q) m K :=
  Matrix.of fun i j =>
    if h : (i : ℕ) < n then A ⟨i, h⟩ j
    else B ⟨(i : ℕ) - n, by have := i.isLt; omega⟩ j

/-- Reindex a matrix along equalities of its dimensions. -/
def castMat {K : Type} {a b c d : ℕ} (h1 : a = c) (h2 : b = d)
    (M : Mat a b K) : Mat c d K :=
  Matrix.of fun i j => M (Fin.cast h1.symm i) (Fin.cast h2.symm j)

/-- Embedding of the slice `M[:, :-1]`: all columns but the last. -/
def firstCols {K : Type} {n m : ℕ} (M : Mat n m K) : Mat n (m - 1) K :=
  M.submatrix id (Fin.castLE (Nat.sub_le m 1))

/-- Embedding of the slice `M[:, 1:]`: all columns but the first. -/
def lastCols {K : Type} {n m : ℕ} (M : Mat n m K) : Mat n (m - 1) K :=
  Matrix.of fun i j => M i ⟨(j : ℕ) + 1, by have := j.isLt; omega⟩

section Externals

variable (K : Type)

/-- Modelled from the spec (section 6): the result the plain (no-control)
DMD operator construction `DMDOperator.compute_operator(X, Y)` — which is
not part of this module — delivers: the returned triple `(U, s, V)` of the
rank-truncated SVD of `X`, together with the reduced operator, eigenpairs
and modes it establishes as a side effect on the shared operator state. -/
structure PlainOpResult (n m r : ℕ) where
  U : Mat n r K
  svals : Fin r → K
  V : Mat m r K
  Atilde : Mat r r K
  eigenvalues : Fin r → K
  eigenvectors : Mat r r K
  modes : Mat n r K

variable [Field K] [StarRing K]

/-- Modelled from the spec (section 6): the external collaborators this
module consumes, none of which are defined in `dmdc.py` — the
rank-truncated SVD (`DMDOperator._compute_svd`, taking a rank
specification), the eigen-solver (`DMDOperator._compute_eigenquantities`
specialised to `rescale_mode = None`, returning eigenvalues and
eigenvectors of a square matrix), the plain no-control operator
construction, the amplitude fitter `DMDBase._compute_amplitudes` (which
needs the modes, the eigenvalues and the initial snapshot), and
`np.linalg.pinv`.  Every theorem below quantifies over this record. -/
structure Externals where
  svd : (a b : ℕ) → ℚ → Mat a b K → Σ p : ℕ, Mat a p K × (Fin p → K) × Mat b p K
  eig : (r : ℕ) → Mat r r K → (Fin r → K) × Mat r r K
  plainOp : (a b : ℕ) → ℚ → Mat a b K → Mat a b K → Σ r : ℕ, PlainOpResult K a b r
  amps : (a r : ℕ) → Mat a r K → (Fin r → K) → (Fin a → K) → (Fin r → K)
  pinv : (a r : ℕ) → Mat a r K → Mat r a K

end Externals

section Builders

variable {K : Type} [Field K] [StarRing K]

/-- Everything `DMDBUnknownOperator.compute_operator` produces: the pair
`(Ur, Ur · Btilde)` it returns (`basis`, `Bfull`), and the quantities it
writes on the shared operator state (`_Atilde`, the eigenpairs set by
`_compute_eigenquantities`, and `_modes`, `_Lambda` set by
`_compute_modes_and_Lambda`). -/
structure UnknownOpResult (K : Type) (n q r : ℕ) where
  Atilde : Mat r r K
  eigenvalues : Fin r → K
  eigenvectors : Mat r r K
  modes : Mat n r K
  Lambda : Fin r → K
  basis : Mat n r K
  Bfull : Mat n q K

/-- Embedding of `DMDBUnknownOperator.compute_operator(X, Y, controlin,
snapshots_rows)` (src/pydmd/dmdc.py lines 24-47).  `snapshots_rows` is the
row count `n` of `X`; the two `_compute_svd` calls are the oracle `E.svd`
applied at ranks `rkOmega` (`self._svd_rank_omega`) and `rkY`
(`self._svd_rank`). -/
def unknownOp (E : Externals K) (rkOmega rkY : ℚ) {n q m : ℕ}
    (X : Mat n m K) (Y : Mat n m K) (controlin : Mat q m K) :
    UnknownOpResult K n q (E.svd n m rkY Y).1 :=
  let SO := E.svd (n + q) m rkOmega (vstack X controlin)
  let Up := SO.2.1
  let sp := SO.2.2.1
  let Vp := SO.2.2.2
  let Up1 := Up.submatrix (Fin.castAdd q) id
  let Up2 := Up.submatrix (Fin.natAdd n) id
  let SY := E.svd n m rkY Y
  let Ur := SY.2.1
  let Atilde :=
    Urᴴ * Y * Vp * Matrix.diagonal (fun i => (sp i)⁻¹) * Up1ᴴ * Ur
  let ew := E.eig _ Atilde
  let modes :=
    Y * Vp * Matrix.diagonal (fun i => (sp i)⁻¹) * Up1ᴴ * Ur * ew.2
  let Btilde :=
    Urᴴ * Y * Vp * Matrix.diagonal (fun i => (sp i)⁻¹) * Up2ᴴ
  { Atilde := Atilde
    eigenvalues := ew.1
    eigenvectors := ew.2
    modes := modes
    Lambda := ew.1
    basis := Ur
    Bfull := Ur * Btilde }

/-- Embedding of `DMDBKnownOperator.compute_operator(X, Y, B, controlin)`
(src/pydmd/dmdc.py lines 18-21): subtract the known control contribution
and delegate to the plain no-control construction. -/
def knownOp (E : Externals K) (rkY : ℚ) {n q m : ℕ}
    (X : Mat n m K) (Y : Mat n m K) (B : Mat n q K) (controlin : Mat q m K) :
    Σ r : ℕ, PlainOpResult K n m r :=
  E.plainOp n m rkY X (Y - B * controlin)

/-- Index used by numpy broadcasting along one axis: an axis of extent `1`
is repeated (index `0` is read everywhere), an axis of matching extent is
read at the given index. -/
def bidx {k t : ℕ} (h : k = t ∨ k = 1) (i : Fin t) : Fin k :=
  if hk : k = 1 then ⟨0, by omega⟩
  else ⟨(i : ℕ), by have := i.isLt; rcases h with h2 | h2 <;> omega⟩

/-- Elementwise subtraction `Y - P` with numpy broadcasting of `P` over
`Y`: each axis of `P` either matches the corresponding axis of `Y` or has
extent `1` and is repeated.  (The remaining numpy broadcast cases — an
axis of `Y` of extent `1` stretched by `P` — change the result shape, so
every later step of the known-`B` pipeline raises on them; they are
therefore equivalent to the shape error this embedding reports.) -/
def bcastSub {n m nb c : ℕ} (Y : Mat n m K) (P : Mat nb c K)
    (hr : nb = n ∨ nb = 1) (hc : c = m ∨ c = 1) : Mat n m K :=
  Matrix.of fun i j => Y i j - P (bidx hr i) (bidx hc j)

/-- Embedding of `DMDBKnownOperator.compute_operator(X, Y, B, controlin)`
(src/pydmd/dmdc.py lines 18-21) in the numpy-broadcast cases the
subtraction `Y - B.dot(controlin)` accepts: `B.dot(controlin)` may have a
single row or a single column and is then broadcast over `Y`.  At exact
shapes this coincides with `knownOp` (lemma `knownOpB_exact`). -/
def knownOpB (E : Externals K) (rkY : ℚ) {n q m nb c : ℕ}
    (X : Mat n m K) (Y : Mat n m K) (B : Mat nb q K) (controlin : Mat q c K)
    (hr : nb = n ∨ nb = 1) (hc : c = m ∨ c = 1) :
    Σ r : ℕ, PlainOpResult K n m r :=
  E.plainOp n m rkY X (bcastSub Y (B * controlin) hr hc)

end Builders

section Model

variable (K : Type)

/-- The mutable attribute surface of a `DMDc` instance that the claims
talk about: `_snapshots`, `_controlin`, `original_time`, `dmd_time`,
`_basis`, `_B`, and the spectral quantities held on the operator object
(`_modes`, eigenvalues) plus the amplitudes `_b`.  Unset attributes
(`None` before `fit`) are `none`. -/
structure DMDcState where
  snapshots : Option (SomeMat K)
  controlin : Option (SomeMat K)
  originalTime : Option TimeDict
  dmdTime : Option TimeDict
  basis : Option (SomeMat K)
  B : Option (SomeMat K)
  modes : Option (SomeMat K)
  eigs : Option (SomeVec K)
  amplitudes : Option (SomeVec K)

/-- The state `DMDc.__init__` leaves behind: nothing fitted. -/
def DMDc.init : DMDcState K :=
  ⟨none, none, none, none, none, none, none, none, none⟩

/-- The rank settings a `DMDc` instance carries (`svd_rank`,
`svd_rank_omega`, both `int or float`; modelled as rationals). -/
structure DMDcConfig where
  svdRank : ℚ
  svdRankOmega : ℚ

/-- A fatal error surfacing from a shape-inconsistent matrix operation
inside `fit` (numpy raises; the code never catches it). -/
inductive FitErr
  | shapeErr
deriving DecidableEq

end Model

section Fit

variable {K : Type} [Field K] [StarRing K]

/-- Embedding of `DMDc.fit(X, I, B)` (src/pydmd/dmdc.py lines 147-183) as
a transformer of the attribute state.  Mirrors the statement order of the
source: store the parsed snapshots and control input, derive `X_prev` and
`Y_next`, set both time dictionaries, then run the builder selected by
`B` and finally compute the amplitudes.  A shape-inconsistent matrix
operation inside a builder (the `np.vstack` in the unknown-`B` path, the
`Y - B·controlin` products in the known-`B` path) or a missing initial
snapshot for the amplitude computation raises: the second
component of the returned pair reports the error and the first component
is the attribute state at the moment of the raise.  The known-`B`
subtraction follows numpy broadcasting (`bcastSub`): besides the
exact-shape case it also accepts a `B.dot(controlin)` with a single row
or a single column, so a fit with, say, a one-column control input and a
caller-supplied `B` succeeds even though `n_samples - 1 > 1`. -/
def DMDc.fit (E : Externals K) (cfg : DMDcConfig) (s0 : DMDcState K)
    (n m : ℕ) (Xm : Mat n m K) (q c : ℕ) (Im : Mat q c K)
    (Bin : Option (Σ nb : ℕ, Σ qb : ℕ, Mat nb qb K)) :
    DMDcState K × Option FitErr :=
  let td : TimeDict := ⟨0, (m : ℤ) - 1, 1⟩
  let s1 : DMDcState K :=
    { s0 with
      snapshots := some ⟨n, m, Xm⟩
      controlin := some ⟨q, c, Im⟩
      originalTime := some td
      dmdTime := some td }
  let Xp := firstCols Xm
  let Ynext := lastCols Xm
  match Bin with
  | none =>
    if hc : c = m - 1 then
      let res := unknownOp E cfg.svdRankOmega cfg.svdRank Xp Ynext (castMat rfl hc Im)
      let s2 : DMDcState K :=
        { s1 with
          basis := some ⟨n, _, res.basis⟩
          B := some ⟨n, q, res.Bfull⟩
          modes := some ⟨n, _, res.modes⟩
          eigs := some ⟨_, res.eigenvalues⟩ }
      if hm : 0 < m then
        ({ s2 with
           amplitudes :=
             some ⟨_, E.amps n _ res.modes res.eigenvalues (fun i => Xm i ⟨0, hm⟩)⟩ },
         none)
      else (s2, some .shapeErr)
    else (s1, some .shapeErr)
  | some ⟨nb, qb, Bm⟩ =>
    if hd : qb = q ∧ (nb = n ∨ nb = 1) ∧ (c = m - 1 ∨ c = 1) then
      let R := knownOpB E cfg.svdRank Xp Ynext (castMat rfl hd.1 Bm) Im
        hd.2.1 hd.2.2
      let s2 : DMDcState K :=
        { s1 with
          basis := some ⟨n, R.1, R.2.U⟩
          B := some ⟨nb, qb, Bm⟩
          modes := some ⟨n, R.1, R.2.modes⟩
          eigs := some ⟨R.1, R.2.eigenvalues⟩ }
      if hm : 0 < m then
        ({ s2 with
           amplitudes :=
             some ⟨R.1, E.amps n R.1 R.2.modes R.2.eigenvalues (fun i => Xm i ⟨0, hm⟩)⟩ },
         none)
      else (s2, some .shapeErr)
    else (s1, some .shapeErr)

end Fit

section Reconstruct

variable {K : Type} [Field K] [StarRing K]

/-- The errors `reconstructed_data` can surface: the reconstruction-size
`RuntimeError` of src/pydmd/dmdc.py lines 131-133 (`sizeErr`), a fatal
shape error from a later matrix operation (`dimErr`), and the attribute
error hit when a needed fitted attribute is still `None` (`unfitted`). -/
inductive RecErr
  | sizeErr
  | dimErr
  | unfitted
deriving DecidableEq

/-- Modelled from the spec (sections 3 and 4.4): the number of columns of
the inherited `dynamics` matrix — one column per `dmd_time` timestep,
`(tend - t0) / dt + 1` of them.  `DMDBase.dynamics` is not part of this
module; only this column count is consumed here. -/
def dynamicsCols (td : TimeDict) : ℤ :=
  (td.tend - td.t0).fdiv td.dt + 1

/-- The eigenvalue scaling of src/pydmd/dmdc.py lines 135-136: `np.power`
of the eigenvalues with exponent `old_div(dmd dt, original dt)`, where
`old_div` on the stored integer `dt` entries is floor division. -/
def scaledEigs {r : ℕ} (ev : Fin r → K) (dmdTd origTd : TimeDict) :
    Fin r → K :=
  fun i => ev i ^ Int.fdiv dmdTd.dt origTd.dt

/-- The recursive propagation of src/pydmd/dmdc.py lines 139-142:
`data[0]` is the initial vector, `data[i+1] = A·data[i] + B·u(i)`. -/
def traj {n q : ℕ} (A : Mat n n K) (B : Mat n q K) (x0 : Fin n → K)
    (u : ℕ → Fin q → K) : ℕ → Fin n → K
  | 0 => x0
  | i + 1 => A.mulVec (traj A B x0 u i) + B.mulVec (u i)

/-- The control sequence `reconstructed_data` uses: the argument when one
is passed, otherwise the control input stored by `fit`
(src/pydmd/dmdc.py lines 125-128). -/
def usedControl (s : DMDcState K) (ctrlIn : Option (SomeMat K)) :
    Option (SomeMat K) :=
  match ctrlIn with
  | some cm => some cm
  | none => s.controlin

/-- Embedding of `DMDc.reconstructed_data(control_input)`
(src/pydmd/dmdc.py lines 114-145).  The method only reads the attribute
state, so it returns the state unchanged next to its result.  Mirroring
the source order: resolve the control sequence, compare its column count
against `dynamics.shape[1] - 1` (raising the reconstruction-size error on
mismatch), scale the eigenvalues, form `A = modes · diag(eigs) ·
pinv(modes)`, then propagate from the first stored snapshot column and
stack the `k+1` vectors as columns.  A shape inconsistency among the
fitted attributes surfaces as `dimErr` and a missing attribute as
`unfitted`, exactly the situations where numpy or attribute access would
raise something other than the size error. -/
def DMDc.reconstructedData (E : Externals K) (s : DMDcState K)
    (ctrlIn : Option (SomeMat K)) :
    DMDcState K × Except RecErr (SomeMat K) :=
  (s,
    match usedControl s ctrlIn with
    | none => .error .unfitted
    | some ⟨qc, k, u⟩ =>
      match s.dmdTime, s.originalTime with
      | some dtd, some otd =>
        if (k : ℤ) ≠ dynamicsCols dtd - 1 then .error .sizeErr
        else
          match s.eigs, s.modes, s.snapshots, s.B with
          | some ⟨re, ev⟩, some ⟨nm, rm, M⟩, some ⟨ns, ms, S⟩,
            some ⟨nb, qb, Bm⟩ =>
            if h : rm = re ∧ nm = ns ∧ nb = ns ∧ qb = qc ∧ 0 < ms then
              let Mc : Mat ns re K := castMat h.2.1 h.1 M
              let A : Mat ns ns K :=
                Mc * Matrix.diagonal (scaledEigs ev dtd otd) * E.pinv ns re Mc
              let Bc : Mat ns qc K := castMat h.2.2.1 h.2.2.2.1 Bm
              let x0 : Fin ns → K := fun i => S i ⟨0, h.2.2.2.2⟩
              let uf : ℕ → Fin qc → K := fun i j =>
                if hik : i < k then u j ⟨i, hik⟩ else 0
              .ok ⟨ns, k + 1, Matrix.of fun i c => traj A Bc x0 uf (c : ℕ) i⟩
            else .error .dimErr
          | _, _, _, _ => .error .unfitted
      | _, _ => .error .unfitted)

end Reconstruct

section ConcreteInstances

/-- A concrete instantiation of the external collaborators over `ℚ`, used
only to evaluate the theorems below at specific inputs (the theorems
themselves quantify over arbitrary collaborators). -/
def toyE : Externals ℚ where
  svd := fun _a _b _rk _M => ⟨0, fun _ j => j.elim0, fun j => j.elim0, fun _ j => j.elim0⟩
  eig := fun _r A => (fun _ => 0, A)
  plainOp := fun _a _b _rk _X _Y =>
    ⟨0,
     { U := fun _ j => j.elim0
       svals := fun j => j.elim0
       V := fun _ j => j.elim0
       Atilde := fun j => j.elim0
       eigenvalues := fun j => j.elim0
       eigenvectors := fun j => j.elim0
       modes := fun _ j => j.elim0 }⟩
  amps := fun _a _r _M _ev _x0 => fun _ => 0
  pinv := fun _a _r _M => fun _ _ => 0

/-- Default rank configuration (`svd_rank = -1`, `svd_rank_omega = -1`). -/
def cfg0 : DMDcConfig := ⟨-1, -1⟩

/-- A concrete `1 × 3` snapshot matrix. -/
def Xw3 : Mat 1 3 ℚ := Matrix.of fun _ j => ((j : ℕ) : ℚ)

/-- A concrete `1 × 2` snapshot matrix. -/
def Xw2 : Mat 1 2 ℚ := Matrix.of fun _ j => ((j : ℕ) : ℚ) + 1

/-- A concrete `1 × 1` control matrix. -/
def Iw1 : Mat 1 1 ℚ := Matrix.of fun _ _ => 2

/-- A concrete `1 × 1`B matrix. -/
def Bw1 : Mat 1 1 ℚ := Matrix.of fun _ _ => 3

/-- A concrete `2 × 4` snapshot matrix (broadcasting counterexample). -/
def Xc4 : Mat 2 4 ℚ := Matrix.of fun i j => ((i : ℕ) : ℚ) + ((j : ℕ) : ℚ)

/-- A concrete `2 × 1` control operator (broadcasting counterexample). -/
def Bc21 : Mat 2 1 ℚ := Matrix.of fun _ _ => 1

end ConcreteInstances

section FitLemmas

variable {K : Type} [Field K] [StarRing K]

/-- Whatever happens later, `fit` first stores the parsed snapshots and
control input and sets both time dictionaries (src/pydmd/dmdc.py lines
162-170 run before any builder can raise). -/
theorem DMDc.fit_ingests (E : Externals K) (cfg : DMDcConfig)
    (s0 : DMDcState K) (n m : ℕ) (Xm : Mat n m K) (q c : ℕ) (Im : Mat q c K)
    (Bin : Option (Σ nb : ℕ, Σ qb : ℕ, Mat nb qb K)) :
    (DMDc.fit E cfg s0 n m Xm q c Im Bin).1.snapshots = some ⟨n, m, Xm⟩ ∧
    (DMDc.fit E cfg s0 n m Xm q c Im Bin).1.controlin = some ⟨q, c, Im⟩ ∧
    (DMDc.fit E cfg s0 n m Xm q c Im Bin).1.originalTime =
      some ⟨0, (m : ℤ) - 1, 1⟩ ∧
    (DMDc.fit E cfg s0 n m Xm q c Im Bin).1.dmdTime =
      some ⟨0, (m : ℤ) - 1, 1⟩ := by
  obtain _ | ⟨nb, qb, Bm⟩ := Bin <;>
    · simp only [DMDc.fit]
      split <;> first
        | exact ⟨rfl, rfl, rfl, rfl⟩
        | (split <;> exact ⟨rfl, rfl, rfl, rfl⟩)

/-- Broadcasting an axis whose extent already matches reads the given
index unchanged. -/
theorem bidx_exact {t : ℕ} (h : t = t ∨ t = 1) (i : Fin t) :
    bidx h i = i := by
  unfold bidx
  split
  · rename_i hk
    subst hk
    apply Fin.ext
    have := i.isLt
    omega
  · rfl

/-- At exact shapes the broadcast subtraction is the plain matrix
subtraction. -/
theorem bcastSub_exact {n m : ℕ} (Y P : Mat n m K)
    (hr : n = n ∨ n = 1) (hc : m = m ∨ m = 1) :
    bcastSub Y P hr hc = Y - P := by
  funext i j
  show Y i j - P (bidx hr i) (bidx hc j) = Y i j - P i j
  rw [bidx_exact, bidx_exact]

/-- At exact shapes the broadcasting known-`B` builder is the plain
known-`B` builder. -/
theorem knownOpB_exact (E : Externals K) (rkY : ℚ) {n q m : ℕ}
    (X : Mat n m K) (Y : Mat n m K) (B : Mat n q K) (controlin : Mat q m K)
    (hr : n = n ∨ n = 1) (hc : m = m ∨ m = 1) :
    knownOpB E rkY X Y B controlin hr hc = knownOp E rkY X Y B controlin := by
  unfold knownOpB knownOp
  rw [bcastSub_exact]

/-- A `fit` that returns without raising passed the initial-snapshot
access (`0 < m`); with `B` omitted it moreover passed the `np.vstack`
shape check, so the control input has exactly `m - 1` columns. -/
theorem DMDc.fit_success_shapes (E : Externals K) (cfg : DMDcConfig)
    (s0 : DMDcState K) (n m : ℕ) (Xm : Mat n m K) (q c : ℕ) (Im : Mat q c K)
    (Bin : Option (Σ nb : ℕ, Σ qb : ℕ, Mat nb qb K)) (s : DMDcState K)
    (hfit : DMDc.fit E cfg s0 n m Xm q c Im Bin = (s, none)) :
    0 < m ∧ (Bin = none → c = m - 1) := by
  obtain _ | ⟨nb, qb, Bm⟩ := Bin <;>
    · simp only [DMDc.fit] at hfit
      split at hfit <;>
        first
          | (injection hfit with h1 h2; exact Option.noConfusion h2)
          | (split at hfit <;>
              first
                | (injection hfit with h1 h2; exact Option.noConfusion h2)
                | (rename_i hcond hm
                   refine ⟨hm, ?_⟩
                   first
                     | (intro _; exact hcond)
                     | (intro hnone; exact Option.noConfusion hnone)))

end FitLemmas

section Claims

variable {K : Type} [Field K] [StarRing K]

/-- Claim C1: For every fit call with `B` omitted, the unknown-`B` builder
forms `Omega` by stacking `X` on top of the control matrix, takes its
rank-truncated SVD at rank `svd_rank_omega` giving `(Up, sp, Vp)`, splits
`Up` row-wise into `Up1` (first `n` rows) and `Up2` (the rest), takes the
rank-truncated SVD of `Y` at rank `svd_rank` giving `Ur`, and sets
`Atilde = Urᴴ · Y · Vp · diag(1 / sp) · Up1ᴴ · Ur`. -/
theorem unknownOp_Atilde_matches_spec (E : Externals K) (rkOmega rkY : ℚ)
    {n q m : ℕ} (X Y : Mat n m K) (C : Mat q m K) :
    (unknownOp E rkOmega rkY X Y C).Atilde =
      (E.svd n m rkY Y).2.1ᴴ * Y * (E.svd (n + q) m rkOmega (vstack X C)).2.2.2 *
        Matrix.diagonal (fun i => ((E.svd (n + q) m rkOmega (vstack X C)).2.2.1 i)⁻¹) *
        ((E.svd (n + q) m rkOmega (vstack X C)).2.1.submatrix (Fin.castAdd q) id)ᴴ *
        (E.svd n m rkY Y).2.1 := rfl

/-- Claim C2: In the unknown-`B` builder the eigenpairs `(lambda, W)` of
`Atilde` are solved, the modes are `Y · Vp · diag(1 / sp) · Up1ᴴ · Ur ·
W`, and `Lambda` equals the eigenvalues of `Atilde` (self-consistent with
the eigenvalue attribute of the builder itself, one eigenvalue per mode
column). -/
theorem unknownOp_modes_and_Lambda (E : Externals K) (rkOmega rkY : ℚ)
    {n q m : ℕ} (X Y : Mat n m K) (C : Mat q m K) :
    (unknownOp E rkOmega rkY X Y C).modes =
      Y * (E.svd (n + q) m rkOmega (vstack X C)).2.2.2 *
        Matrix.diagonal (fun i => ((E.svd (n + q) m rkOmega (vstack X C)).2.2.1 i)⁻¹) *
        ((E.svd (n + q) m rkOmega (vstack X C)).2.1.submatrix (Fin.castAdd q) id)ᴴ *
        (E.svd n m rkY Y).2.1 *
        (E.eig _ (unknownOp E rkOmega rkY X Y C).Atilde).2 ∧
    (unknownOp E rkOmega rkY X Y C).Lambda =
      (E.eig _ (unknownOp E rkOmega rkY X Y C).Atilde).1 ∧
    (unknownOp E rkOmega rkY X Y C).eigenvalues =
      (unknownOp E rkOmega rkY X Y C).Lambda :=
  ⟨rfl, rfl, rfl⟩

end Claims

section ClaimsFit

variable {K : Type} [Field K] [StarRing K]

/-- Claim C3: In the unknown-`B` path the reduced control operator is
`Btilde = Urᴴ · Y · Vp · diag(1 / sp) · Up2ᴴ`, it is lifted to full space
as `Bfull = Ur · Btilde`, the builder returns the pair `(Ur, Bfull)`, and
a succeeding `fit` (called with `B` omitted) stores `Ur` as the basis of
the model and `Bfull` as its `B`. -/
theorem unknownOp_control_operator_and_fit_stores (E : Externals K)
    (cfg : DMDcConfig) (s0 : DMDcState K) {n q m : ℕ} (Xm : Mat n m K)
    (Im : Mat q (m - 1) K) (s : DMDcState K)
    (hfit : DMDc.fit E cfg s0 n m Xm q (m - 1) Im none = (s, none)) :
    (∀ {m' : ℕ} (X Y : Mat n m' K) (C : Mat q m' K),
      (unknownOp E cfg.svdRankOmega cfg.svdRank X Y C).Bfull =
        (E.svd n m' cfg.svdRank Y).2.1 *
          ((E.svd n m' cfg.svdRank Y).2.1ᴴ * Y *
            (E.svd (n + q) m' cfg.svdRankOmega (vstack X C)).2.2.2 *
            Matrix.diagonal
              (fun i => ((E.svd (n + q) m' cfg.svdRankOmega (vstack X C)).2.2.1 i)⁻¹) *
            ((E.svd (n + q) m' cfg.svdRankOmega (vstack X C)).2.1.submatrix
              (Fin.natAdd n) id)ᴴ) ∧
      (unknownOp E cfg.svdRankOmega cfg.svdRank X Y C).basis =
        (E.svd n m' cfg.svdRank Y).2.1) ∧
    s.basis =
      some ⟨n, _,
        (unknownOp E cfg.svdRankOmega cfg.svdRank (firstCols Xm) (lastCols Xm) Im).basis⟩ ∧
    s.B =
      some ⟨n, q,
        (unknownOp E cfg.svdRankOmega cfg.svdRank (firstCols Xm) (lastCols Xm) Im).Bfull⟩ := by
  refine ⟨fun X Y C => ⟨rfl, rfl⟩, ?_, ?_⟩ <;>
    · simp only [DMDc.fit] at hfit
      split at hfit <;>
        first
          | (injection hfit with h1 h2; exact Option.noConfusion h2)
          | (split at hfit <;>
              first
                | (injection hfit with h1 h2; exact Option.noConfusion h2)
                | (injection hfit with h1 h2; subst h1; rfl))

/-- Claim C4: For every fit call with a caller-supplied `B`, the known-`B`
builder computes `Y - B · controlin` and delegates to the plain
no-control operator construction on `(X, Y - B · controlin)`; a
succeeding `fit` stores the orthonormal basis returned by that delegate
as the basis of the model and the caller-supplied `B` verbatim as its
`B`. -/
theorem knownOp_delegates_and_fit_stores (E : Externals K)
    (cfg : DMDcConfig) (s0 : DMDcState K) {n q m : ℕ} (Xm : Mat n m K)
    (Bm : Mat n q K) (Im : Mat q (m - 1) K) (s : DMDcState K)
    (hfit : DMDc.fit E cfg s0 n m Xm q (m - 1) Im (some ⟨n, q, Bm⟩) = (s, none)) :
    (∀ {m' : ℕ} (X Y : Mat n m' K) (Bk : Mat n q K) (C : Mat q m' K),
      knownOp E cfg.svdRank X Y Bk C =
        E.plainOp n m' cfg.svdRank X (Y - Bk * C)) ∧
    s.basis =
      some ⟨n, _,
        (knownOp E cfg.svdRank (firstCols Xm) (lastCols Xm) Bm Im).2.U⟩ ∧
    s.B = some ⟨n, q, Bm⟩ := by
  refine ⟨fun X Y Bk C => rfl, ?_, ?_⟩ <;>
    · simp only [DMDc.fit] at hfit
      split at hfit <;>
        first
          | (injection hfit with h1 h2; exact Option.noConfusion h2)
          | (split at hfit <;>
              first
                | (injection hfit with h1 h2; exact Option.noConfusion h2)
                | (injection hfit with h1 h2; subst h1
                   first
                     | rfl
                     | (rw [knownOpB_exact]; rfl)))

end ClaimsFit

section ClaimsState

variable {K : Type} [Field K] [StarRing K]

/-- Claim C7, amended: When `fit` raises, the model is not left unset:
the snapshots, the control sequence and both time dictionaries have
already been assigned from the new inputs before any builder or
amplitude step can fail; the amplitudes are never newly established on a
failing fit (they keep their pre-call value, so on a fresh model they
stay unset). -/
theorem fit_failure_presets_state (E : Externals K) (cfg : DMDcConfig)
    (s0 : DMDcState K) (n m : ℕ) (Xm : Mat n m K) (q c : ℕ) (Im : Mat q c K)
    (Bin : Option (Σ nb : ℕ, Σ qb : ℕ, Mat nb qb K)) (s : DMDcState K)
    (e : FitErr) (hfit : DMDc.fit E cfg s0 n m Xm q c Im Bin = (s, some e)) :
    s.snapshots = some ⟨n, m, Xm⟩ ∧ s.controlin = some ⟨q, c, Im⟩ ∧
    s.originalTime = some ⟨0, (m : ℤ) - 1, 1⟩ ∧
    s.dmdTime = some ⟨0, (m : ℤ) - 1, 1⟩ ∧
    s.amplitudes = s0.amplitudes := by
  obtain _ | ⟨nb, qb, Bm⟩ := Bin <;>
    · simp only [DMDc.fit] at hfit
      split at hfit <;>
        first
          | (injection hfit with h1 h2; subst h1; exact ⟨rfl, rfl, rfl, rfl, rfl⟩)
          | (split at hfit <;>
              first
                | (injection hfit with h1 h2; subst h1; exact ⟨rfl, rfl, rfl, rfl, rfl⟩)
                | (injection hfit with h1 h2; exact Option.noConfusion h2))

/-- Counterexample to claim C7 as stated: The claim as stated — a raising `fit` leaves
no fitted field established — is false: fitting a `1 × 3` snapshot
matrix with a one-column control input raises the builder shape error,
yet the snapshots attribute is already set when it does. -/
theorem fit_failure_partial_state_cex :
    (DMDc.fit toyE cfg0 (DMDc.init ℚ) 1 3 Xw3 1 1 Iw1 none).2.isSome = true ∧
    (DMDc.fit toyE cfg0 (DMDc.init ℚ) 1 3 Xw3 1 1 Iw1 none).1.snapshots.isSome
      = true :=
  ⟨rfl, rfl⟩

/-- Claim C8: Every model produced by `fit` carries both time dictionaries
set to `{t0: 0, tend: n_samples - 1, dt: 1}`, so the eigenvalue-scaling
exponent `dmd_dt / original_dt` used by `reconstructed_data` is `1` and
the scaled eigenvalues equal the raw fitted eigenvalues. -/
theorem fit_time_dicts_unit_exponent (E : Externals K) (cfg : DMDcConfig)
    (s0 : DMDcState K) (n m : ℕ) (Xm : Mat n m K) (q c : ℕ) (Im : Mat q c K)
    (Bin : Option (Σ nb : ℕ, Σ qb : ℕ, Mat nb qb K)) (s : DMDcState K)
    (hfit : DMDc.fit E cfg s0 n m Xm q c Im Bin = (s, none)) :
    s.originalTime = some ⟨0, (m : ℤ) - 1, 1⟩ ∧
    s.dmdTime = some ⟨0, (m : ℤ) - 1, 1⟩ ∧
    ∀ (r : ℕ) (ev : Fin r → K),
      scaledEigs ev ⟨0, (m : ℤ) - 1, 1⟩ ⟨0, (m : ℤ) - 1, 1⟩ = ev := by
  have hs : s = (DMDc.fit E cfg s0 n m Xm q c Im Bin).1 := by rw [hfit]
  obtain ⟨-, -, hot, hdt⟩ := DMDc.fit_ingests E cfg s0 n m Xm q c Im Bin
  refine ⟨by rw [hs]; exact hot, by rw [hs]; exact hdt, fun r ev => ?_⟩
  funext i
  show ev i ^ Int.fdiv 1 1 = ev i
  rw [show Int.fdiv 1 1 = 1 from rfl, zpow_one]

/-- Claim C9: `reconstructed_data` never mutates the fitted attribute
state, and calling it twice with no argument on the same model yields
identical output. -/
theorem reconstructedData_pure (E : Externals K) (s : DMDcState K)
    (ctrlIn : Option (SomeMat K)) :
    (DMDc.reconstructedData E s ctrlIn).1 = s ∧
    (DMDc.reconstructedData E (DMDc.reconstructedData E s none).1 none).2 =
      (DMDc.reconstructedData E s none).2 :=
  ⟨rfl, rfl⟩

/-- Claim C10, amended: After every successful `fit` with `B` omitted,
calling `reconstructed_data` with no argument never raises the
reconstruction-size error — the `np.vstack` of the unknown-`B` path
forces the stored control matrix to `n_samples - 1` columns, exactly
what the validation against the dynamics column count requires; the same
holds for a successful fit with a caller-supplied `B` whenever the
control input has `n_samples - 1` columns.  (The known-`B` subtraction
does not force this: numpy broadcasting also accepts a single-column
control, after which the argumentless call does raise the size error —
see the counterexample.) -/
theorem fit_then_reconstruct_no_size_error (E : Externals K)
    (cfg : DMDcConfig) (s0 : DMDcState K) (n m : ℕ) (Xm : Mat n m K)
    (q c : ℕ) (Im : Mat q c K)
    (Bin : Option (Σ nb : ℕ, Σ qb : ℕ, Mat nb qb K)) (s : DMDcState K)
    (hfit : DMDc.fit E cfg s0 n m Xm q c Im Bin = (s, none))
    (hfull : Bin = none ∨ c = m - 1) :
    (DMDc.reconstructedData E s none).2 ≠ Except.error RecErr.sizeErr := by
  obtain ⟨hm, himp⟩ := DMDc.fit_success_shapes E cfg s0 n m Xm q c Im Bin s hfit
  have hc : c = m - 1 := hfull.elim himp fun h => h
  have hs : s = (DMDc.fit E cfg s0 n m Xm q c Im Bin).1 := by rw [hfit]
  obtain ⟨-, hcon, hot, hdt⟩ := DMDc.fit_ingests E cfg s0 n m Xm q c Im Bin
  rw [← hs] at hcon hot hdt
  simp only [DMDc.reconstructedData, usedControl]
  rw [hcon, hdt, hot]
  have hsz : ¬ ((c : ℤ) ≠ dynamicsCols ⟨0, (m : ℤ) - 1, 1⟩ - 1) := by
    simp only [dynamicsCols, Int.sub_zero, Int.fdiv_one, ne_eq, not_not]
    subst hc
    omega
  simp only [if_neg hsz]
  split <;> first
    | (split <;> simp)
    | simp

/-- Counterexample to claim C10 as stated: with a caller-supplied `B` and
a single-column control input (`X` of shape `2 × 4`, `I` of shape
`1 × 1`, `B` of shape `2 × 1`), numpy broadcasting lets the subtraction
`Y - B.dot(controlin)` in the known-`B` builder succeed, so `fit`
returns successfully with a stored control of one column — and the
argumentless `reconstructed_data` call then raises the
reconstruction-size error, since `1` differs from
`n_samples - 1 = 3`. -/
theorem fit_broadcast_then_size_error_cex :
    (DMDc.fit toyE cfg0 (DMDc.init ℚ) 2 4 Xc4 1 1 Iw1
        (some ⟨2, 1, Bc21⟩)).2 = none ∧
    (DMDc.reconstructedData toyE
        (DMDc.fit toyE cfg0 (DMDc.init ℚ) 2 4 Xc4 1 1 Iw1
          (some ⟨2, 1, Bc21⟩)).1 none).2 = Except.error RecErr.sizeErr :=
  ⟨rfl, rfl⟩

end ClaimsState

section ClaimsReconstruct

variable {K : Type} [Field K] [StarRing K]

/-- Claim C6: `reconstructed_data` raises the reconstruction-size error if
and only if the control sequence it uses (the supplied one, or the stored
one when the argument is omitted) has a column count different from the
dynamics column count minus one; and the call leaves the fitted state
unchanged. -/
theorem reconstructedData_size_error_iff (E : Externals K)
    (s : DMDcState K) (dtd otd : TimeDict) (hdt : s.dmdTime = some dtd)
    (hot : s.originalTime = some otd) (ctrlIn : Option (SomeMat K))
    (qc k : ℕ) (u : Mat qc k K)
    (hu : usedControl s ctrlIn = some ⟨qc, k, u⟩) :
    ((DMDc.reconstructedData E s ctrlIn).2 = Except.error RecErr.sizeErr ↔
      (k : ℤ) ≠ dynamicsCols dtd - 1) ∧
    (DMDc.reconstructedData E s ctrlIn).1 = s := by
  refine ⟨?_, rfl⟩
  simp only [DMDc.reconstructedData]
  rw [hu, hdt, hot]
  by_cases hsz : (k : ℤ) ≠ dynamicsCols dtd - 1
  · simp [hsz]
  · simp only [if_neg hsz]
    refine ⟨fun hcontra => ?_, fun hne => absurd hne hsz⟩
    exfalso
    revert hcontra
    split <;> first
      | (split <;> simp)
      | simp

/-- Claim C5: For every fitted model and every control sequence of `k`
columns accepted by `reconstructed_data`, the returned matrix has `k + 1`
columns in time order: column `0` is exactly the first column of the
fitted snapshot matrix, and column `i + 1` is `A · column_i + B · u_i`
where `A = modes · diag(scaled eigenvalues) · pinv(modes)`. -/
theorem reconstructedData_recursive_propagation (E : Externals K)
    (s : DMDcState K) {n r ms q k : ℕ} (M : Mat n r K) (ev : Fin r → K)
    (S : Mat n ms K) (Bm : Mat n q K) (dtd otd : TimeDict)
    (hM : s.modes = some ⟨n, r, M⟩) (hev : s.eigs = some ⟨r, ev⟩)
    (hS : s.snapshots = some ⟨n, ms, S⟩) (hB : s.B = some ⟨n, q, Bm⟩)
    (hdt : s.dmdTime = some dtd) (hot : s.originalTime = some otd)
    (hms : 0 < ms) (u : Mat q k K)
    (hk : (k : ℤ) = dynamicsCols dtd - 1) :
    ∃ D : Mat n (k + 1) K,
      (DMDc.reconstructedData E s (some ⟨q, k, u⟩)).2 =
        Except.ok ⟨n, k + 1, D⟩ ∧
      (∀ i : Fin n, D i ⟨0, Nat.succ_pos k⟩ = S i ⟨0, hms⟩) ∧
      ∀ (i : ℕ) (hik : i < k),
        (fun row => D row ⟨i + 1, by omega⟩) =
          (M * Matrix.diagonal (scaledEigs ev dtd otd) *
            E.pinv n r M).mulVec (fun row => D row ⟨i, by omega⟩) +
          Bm.mulVec (fun j => u j ⟨i, hik⟩) := by
  simp only [DMDc.reconstructedData, usedControl]
  rw [hev, hM, hS, hB, hdt, hot]
  have hsz : ¬((k : ℤ) ≠ dynamicsCols dtd - 1) := by simp [hk]
  have hdim : True ∧ True ∧ True ∧ True ∧ 0 < ms :=
    ⟨trivial, trivial, trivial, trivial, hms⟩
  simp only [if_neg hsz]
  rw [dif_pos hdim]
  refine ⟨_, rfl, fun i => rfl, fun i hik => ?_⟩
  funext row
  show traj _ _ _ _ (i + 1) row = _
  simp only [traj, dif_pos hik]
  rfl

end ClaimsReconstruct

section Witnesses

/-- A concrete fitted-looking state used to evaluate the
`reconstructed_data` theorems. -/
def Mw : Mat 1 1 ℚ := Matrix.of fun _ _ => 1

/-- Concrete `1 × 1` snapshot matrix for the fitted-state example. -/
def Sw : Mat 1 1 ℚ := Matrix.of fun _ _ => 5

/-- Concrete eigenvalue vector for the fitted-state example. -/
def evW : Fin 1 → ℚ := fun _ => 2

/-- Concrete `1 × 3` (wrong-sized) control matrix. -/
def Uw3 : Mat 1 3 ℚ := Matrix.of fun _ _ => 0

/-- A concrete state with every fitted attribute present. -/
def sW : DMDcState ℚ where
  snapshots := some ⟨1, 1, Sw⟩
  controlin := some ⟨1, 1, Iw1⟩
  originalTime := some ⟨0, 1, 1⟩
  dmdTime := some ⟨0, 1, 1⟩
  basis := none
  B := some ⟨1, 1, Bw1⟩
  modes := some ⟨1, 1, Mw⟩
  eigs := some ⟨1, evW⟩
  amplitudes := some ⟨1, fun _ => 5⟩

/-- Evaluation of C3 at a concrete successful unknown-`B` fit. -/
theorem unknownOp_control_operator_witness :
    ((DMDc.fit toyE cfg0 (DMDc.init ℚ) 1 2 Xw2 1 1 Iw1 none).1).B =
      some ⟨1, 1,
        (unknownOp toyE cfg0.svdRankOmega cfg0.svdRank (firstCols Xw2)
          (lastCols Xw2) Iw1).Bfull⟩ :=
  (unknownOp_control_operator_and_fit_stores toyE cfg0 (DMDc.init ℚ) Xw2 Iw1
    _ rfl).2.2

/-- Evaluation of C4 at a concrete successful known-`B` fit. -/
theorem knownOp_delegates_witness :
    ((DMDc.fit toyE cfg0 (DMDc.init ℚ) 1 2 Xw2 1 1 Iw1
        (some ⟨1, 1, Bw1⟩)).1).B = some ⟨1, 1, Bw1⟩ :=
  (knownOp_delegates_and_fit_stores toyE cfg0 (DMDc.init ℚ) Xw2 Bw1 Iw1
    _ rfl).2.2

/-- Evaluation of C5 at the concrete fitted state `sW` with an accepted
one-column control sequence. -/
theorem reconstructedData_recursive_witness :
    ∃ D : Mat 1 (1 + 1) ℚ,
      (DMDc.reconstructedData toyE sW (some ⟨1, 1, Iw1⟩)).2 =
        Except.ok ⟨1, 1 + 1, D⟩ ∧
      (∀ i : Fin 1, D i ⟨0, Nat.succ_pos 1⟩ = Sw i ⟨0, by omega⟩) ∧
      ∀ (i : ℕ) (hik : i < 1),
        (fun row => D row ⟨i + 1, by omega⟩) =
          (Mw * Matrix.diagonal (scaledEigs evW ⟨0, 1, 1⟩ ⟨0, 1, 1⟩) *
            toyE.pinv 1 1 Mw).mulVec (fun row => D row ⟨i, by omega⟩) +
          Bw1.mulVec (fun j => Iw1 j ⟨i, hik⟩) :=
  reconstructedData_recursive_propagation toyE sW Mw evW Sw Bw1 ⟨0, 1, 1⟩
    ⟨0, 1, 1⟩ rfl rfl rfl rfl rfl rfl (by omega) Iw1 (by decide)

/-- Evaluation of C6 at `sW` with a wrong-sized control sequence. -/
theorem reconstructedData_size_error_iff_witness :
    ((DMDc.reconstructedData toyE sW (some ⟨1, 3, Uw3⟩)).2 =
        Except.error RecErr.sizeErr ↔
      ((3 : ℕ) : ℤ) ≠ dynamicsCols ⟨0, 1, 1⟩ - 1) ∧
    (DMDc.reconstructedData toyE sW (some ⟨1, 3, Uw3⟩)).1 = sW :=
  reconstructedData_size_error_iff toyE sW ⟨0, 1, 1⟩ ⟨0, 1, 1⟩ rfl rfl
    (some ⟨1, 3, Uw3⟩) 1 3 Uw3 rfl

/-- Evaluation of the amended C7 at a concrete failing fit. -/
theorem fit_failure_presets_witness :
    ((DMDc.fit toyE cfg0 (DMDc.init ℚ) 1 3 Xw3 1 1 Iw1 none).1).snapshots =
      some ⟨1, 3, Xw3⟩ :=
  (fit_failure_presets_state toyE cfg0 (DMDc.init ℚ) 1 3 Xw3 1 1 Iw1 none _
    FitErr.shapeErr rfl).1

/-- Evaluation of C8 at a concrete successful fit. -/
theorem fit_time_dicts_witness :
    ((DMDc.fit toyE cfg0 (DMDc.init ℚ) 1 2 Xw2 1 1 Iw1 none).1).dmdTime =
      some ⟨0, ((2 : ℕ) : ℤ) - 1, 1⟩ :=
  (fit_time_dicts_unit_exponent toyE cfg0 (DMDc.init ℚ) 1 2 Xw2 1 1 Iw1 none
    _ rfl).2.1

/-- Evaluation of the amended C10 at a concrete successful fit with `B`
omitted. -/
theorem fit_then_reconstruct_witness :
    (DMDc.reconstructedData toyE
        ((DMDc.fit toyE cfg0 (DMDc.init ℚ) 1 2 Xw2 1 1 Iw1 none).1) none).2 ≠
      Except.error RecErr.sizeErr :=
  fit_then_reconstruct_no_size_error toyE cfg0 (DMDc.init ℚ) 1 2 Xw2 1 1 Iw1
    none _ rfl (Or.inl rfl)

end Witnesses
